import Mathlib

/-!
Verification development for the podcast-processing repository.

The Python data-shaping core (models.py, generators.py, cli.py) is shallowly
embedded: Python floats become `Rat`, Python strings become `String`, JSON
values become the inductive `Json`, and the standard-library `json.loads`
collaborator is modelled by an executable recursive-descent JSON reader.
-/

namespace Podcast

/-- Left brace character, kept out of literals. -/
def lbrace : Char := Char.ofNat 123

/-- Right brace character, kept out of literals. -/
def rbrace : Char := Char.ofNat 125

/-- JSON values, the value-level image of Python's `json` module. -/
inductive Json where
  | null : Json
  | bool (b : Bool) : Json
  | num (q : Rat) : Json
  | str (s : String) : Json
  | arr (elems : List Json) : Json
  | obj (fields : List (String × Json)) : Json
  deriving Repr

/-- JSON whitespace characters (space, tab, newline, carriage return). -/
def isJsonWs (c : Char) : Bool :=
  c = ' ' ∨ c = '\t' ∨ c = '\n' ∨ c = '\r'

/-- Drop leading JSON whitespace. -/
def skipWs : List Char → List Char
  | [] => []
  | c :: rest => if isJsonWs c then skipWs rest else c :: rest

/-- Value of a hexadecimal digit. -/
def hexVal (c : Char) : Option Nat :=
  if '0' ≤ c ∧ c ≤ '9' then some (c.toNat - 48)
  else if 'a' ≤ c ∧ c ≤ 'f' then some (c.toNat - 87)
  else if 'A' ≤ c ∧ c ≤ 'F' then some (c.toNat - 55)
  else none

/-- Body of a JSON string after the opening quote: returns the decoded
string and the input remaining after the closing quote. -/
def parseStringBody : List Char → Option (String × List Char)
  | [] => none
  | '"' :: rest => some ("", rest)
  | '\\' :: 'u' :: a :: b :: c :: d :: rest => do
      let ha ← hexVal a
      let hb ← hexVal b
      let hc ← hexVal c
      let hd ← hexVal d
      let (s, r) ← parseStringBody rest
      some (⟨Char.ofNat (ha * 4096 + hb * 256 + hc * 16 + hd) :: s.data⟩, r)
  | '\\' :: e :: rest => do
      let decoded ←
        if e = '"' then some '"'
        else if e = '\\' then some '\\'
        else if e = '/' then some '/'
        else if e = 'b' then some (Char.ofNat 8)
        else if e = 'f' then some (Char.ofNat 12)
        else if e = 'n' then some '\n'
        else if e = 'r' then some '\r'
        else if e = 't' then some '\t'
        else none
      let (s, r) ← parseStringBody rest
      some (⟨decoded :: s.data⟩, r)
  | c :: rest =>
      if c.toNat < 32 then none
      else do
        let (s, r) ← parseStringBody rest
        some (⟨c :: s.data⟩, r)

/-- Take a maximal run of decimal digits. -/
def takeDigits : List Char → (List Nat × List Char)
  | [] => ([], [])
  | c :: rest =>
      if c.isDigit then
        let (ds, r) := takeDigits rest
        ((c.toNat - 48) :: ds, r)
      else ([], c :: rest)

/-- Assemble a digit list into a natural number. -/
def digitsToNat (ds : List Nat) : Nat :=
  ds.foldl (fun a d => a * 10 + d) 0

/-- A JSON number: optional minus, integer part without leading zeros,
optional fraction, optional exponent. Returns its exact rational value. -/
def parseNumber (l : List Char) : Option (Rat × List Char) :=
  let (neg, l1) := match l with
    | '-' :: r => (true, r)
    | _ => (false, l)
  match l1 with
  | [] => none
  | c :: rest =>
    if ¬ c.isDigit then none
    else
      let (intVal, afterInt) :=
        if c = '0' then ((0 : Nat), rest)
        else
          let (ds, r) := takeDigits rest
          (digitsToNat ((c.toNat - 48) :: ds), r)
      let fracStep : Option (Rat × List Char) :=
        match afterInt with
        | '.' :: f :: fr =>
            if f.isDigit then
              let (ds, r) := takeDigits fr
              let fds := (f.toNat - 48) :: ds
              some ((intVal : Rat) + (digitsToNat fds : Rat) / ((10 : Rat) ^ fds.length), r)
            else none
        | _ => some ((intVal : Rat), afterInt)
      match fracStep with
      | none => none
      | some (mantissa, afterFrac) =>
        let expStep : Option (Rat × List Char) :=
          match afterFrac with
          | e :: er =>
              if e = 'e' ∨ e = 'E' then
                let (esign, er2) := match er with
                  | '+' :: r => (false, r)
                  | '-' :: r => (true, r)
                  | _ => (false, er)
                match er2 with
                | d :: dr =>
                    if d.isDigit then
                      let (ds, r) := takeDigits dr
                      let ev := digitsToNat ((d.toNat - 48) :: ds)
                      if esign then some (mantissa / ((10 : Rat) ^ ev), r)
                      else some (mantissa * ((10 : Rat) ^ ev), r)
                    else none
                | [] => none
              else some (mantissa, afterFrac)
          | [] => some (mantissa, afterFrac)
        match expStep with
        | none => none
        | some (v, r) => some ((if neg then -v else v), r)

mutual

/-- One JSON value, fuel-bounded recursive descent. -/
def parseValue : Nat → List Char → Except String (Json × List Char)
  | 0, _ => .error "Too deeply nested"
  | fuel + 1, l =>
    match skipWs l with
    | [] => .error "Expecting value"
    | c :: rest =>
      if c = lbrace then
        match skipWs rest with
        | c2 :: r2 =>
            if c2 = rbrace then .ok (.obj [], r2)
            else
              match parseFields fuel (c2 :: r2) with
              | .ok (fs, r) => .ok (.obj fs, r)
              | .error e => .error e
        | [] => .error "Expecting property name enclosed in double quotes"
      else if c = '[' then
        match skipWs rest with
        | ']' :: r2 => .ok (.arr [], r2)
        | r2 =>
            match parseElems fuel r2 with
            | .ok (es, r) => .ok (.arr es, r)
            | .error e => .error e
      else
        match c :: rest with
        | '"' :: r =>
            match parseStringBody r with
            | some (s, r2) => .ok (.str s, r2)
            | none => .error "Unterminated string"
        | 't' :: 'r' :: 'u' :: 'e' :: r => .ok (.bool true, r)
        | 'f' :: 'a' :: 'l' :: 's' :: 'e' :: r => .ok (.bool false, r)
        | 'n' :: 'u' :: 'l' :: 'l' :: r => .ok (.null, r)
        | l2 =>
            match parseNumber l2 with
            | some (q, r) => .ok (.num q, r)
            | none => .error "Expecting value"

/-- Comma-separated array elements up to the closing bracket. -/
def parseElems : Nat → List Char → Except String (List Json × List Char)
  | 0, _ => .error "Too deeply nested"
  | fuel + 1, l =>
    match parseValue fuel l with
    | .error e => .error e
    | .ok (v, r) =>
      match skipWs r with
      | ',' :: r2 =>
          match parseElems fuel r2 with
          | .ok (vs, r3) => .ok (v :: vs, r3)
          | .error e => .error e
      | ']' :: r2 => .ok ([v], r2)
      | _ => .error "Expecting comma delimiter"

/-- Comma-separated object members up to the closing brace. -/
def parseFields : Nat → List Char → Except String (List (String × Json) × List Char)
  | 0, _ => .error "Too deeply nested"
  | fuel + 1, l =>
    match skipWs l with
    | '"' :: r =>
        match parseStringBody r with
        | none => .error "Unterminated string"
        | some (key, r2) =>
          match skipWs r2 with
          | ':' :: r3 =>
              match parseValue fuel r3 with
              | .error e => .error e
              | .ok (v, r4) =>
                match skipWs r4 with
                | ',' :: r5 =>
                    match parseFields fuel r5 with
                    | .ok (fs, r6) => .ok ((key, v) :: fs, r6)
                    | .error e => .error e
                | c :: r5 =>
                    if c = rbrace then .ok ([(key, v)], r5)
                    else .error "Expecting comma delimiter"
                | [] => .error "Expecting comma delimiter"
          | _ => .error "Expecting colon delimiter"
    | _ => .error "Expecting property name enclosed in double quotes"

end

/-- Model of Python's `json.loads`: parse one JSON document, requiring only
whitespace to remain afterwards. -/
def json_loads (s : String) : Except String Json :=
  match parseValue (2 * s.length + 2) s.data with
  | .error e => .error e
  | .ok (v, rest) => if skipWs rest = [] then .ok v else .error "Extra data"

/-! ### Data model (models.py) -/

/-- ASCII whitespace stripped by Python's `str.strip()`. -/
def isPyWs (c : Char) : Bool :=
  c = ' ' ∨ c = '\t' ∨ c = '\n' ∨ c = '\r' ∨ c = Char.ofNat 11 ∨ c = Char.ofNat 12

/-- Python's `str.strip()`: drop leading and trailing whitespace. -/
def pyStrip (s : String) : String :=
  ⟨((s.data.dropWhile isPyWs).reverse.dropWhile isPyWs).reverse⟩

/-- `TranscriptSegment` from models.py: a span of transcribed audio. -/
structure TranscriptSegment where
  start : Rat
  «end» : Rat
  text : String
  deriving Repr, DecidableEq

/-- `WordTimestamp` from models.py: word-level timing. -/
structure WordTimestamp where
  word : String
  start : Rat
  «end» : Rat
  probability : Rat
  deriving Repr, DecidableEq

/-- `Transcript` from models.py: segments, words, language, duration. -/
structure Transcript where
  segments : List TranscriptSegment := []
  words : List WordTimestamp := []
  language : String := "en"
  duration : Rat := 0
  deriving Repr, DecidableEq

/-- `Transcript.full_text` from models.py:
`" ".join(seg.text.strip() for seg in self.segments)`. -/
def Transcript.full_text (t : Transcript) : String :=
  String.intercalate " " (t.segments.map (fun seg => pyStrip seg.text))

/-- `Chapter` from models.py. -/
structure Chapter where
  start_time : Rat
  title : String
  description : String := ""
  deriving Repr, DecidableEq

/-- Python `int()` applied to a real value: truncation toward zero. -/
def pyInt (q : Rat) : Int :=
  if 0 ≤ q then ⌊q⌋ else ⌈q⌉

/-- Python's `f"x:02d"` field: decimal rendering zero-padded to width two. -/
def pad2 (n : Int) : String :=
  let s := toString n
  if s.length < 2 then "0" ++ s else s

/-- `Chapter.timestamp` from models.py: `HH:MM:SS` when hours > 0,
else `MM:SS`, from the truncated start time.  Python `//` and `%` on
nonnegative divisors are floor division and floor modulus. -/
def Chapter.timestamp (c : Chapter) : String :=
  let total_seconds := pyInt c.start_time
  let hours := total_seconds.fdiv 3600
  let minutes := (total_seconds.fmod 3600).fdiv 60
  let seconds := total_seconds.fmod 60
  if hours > 0 then
    pad2 hours ++ ":" ++ pad2 minutes ++ ":" ++ pad2 seconds
  else
    pad2 minutes ++ ":" ++ pad2 seconds

/-- `Chapter.to_youtube_format` from models.py: `if self.description:`
selects the long form exactly when the description is non-empty. -/
def Chapter.to_youtube_format (c : Chapter) : String :=
  if c.description ≠ "" then
    c.timestamp ++ " " ++ c.title ++ " - " ++ c.description
  else
    c.timestamp ++ " " ++ c.title

/-- `Title` from models.py. -/
structure Title where
  title : String
  thumbnail_text : String
  reasoning : String := ""
  deriving Repr, DecidableEq

/-- `GeneratedContent` from models.py. -/
structure GeneratedContent where
  description : String := ""
  titles : List Title := []
  chapters : List Chapter := []
  deriving Repr, DecidableEq

/-! ### generators.py helpers -/

/-- Python float `a // b`: floor of the quotient, still a float. -/
def pyFloorDivF (a b : Rat) : Rat := (⌊a / b⌋ : Int)

/-- Python float `a % b`: `a - b * (a // b)`. -/
def pyModF (a b : Rat) : Rat := a - b * pyFloorDivF a b

/-- One line of `_format_transcript_with_timestamps` in generators.py:
`minutes = int(segment.start // 60)`, `seconds = int(segment.start % 60)`,
rendered as `[MM:SS] <stripped text>`. -/
def segment_line (segment : TranscriptSegment) : String :=
  let minutes := pyInt (pyFloorDivF segment.start 60)
  let seconds := pyInt (pyModF segment.start 60)
  "[" ++ pad2 minutes ++ ":" ++ pad2 seconds ++ "]" ++ " " ++ pyStrip segment.text

/-- `_format_transcript_with_timestamps` from generators.py: one line per
segment, joined by newlines. -/
def format_transcript_with_timestamps (transcript : Transcript) : String :=
  String.intercalate "\n" (transcript.segments.map segment_line)

/-- `_extract_json` from generators.py: `re.search(r"\[[\s\S]*\]", text)`
matches from the first left bracket to the last right bracket when such a
span exists; otherwise the whole text is returned. -/
def extract_json (text : String) : String :=
  match text.data.findIdx? (· = '['), (text.data.reverse.findIdx? (· = ']')) with
  | some i, some k =>
      let j := text.data.length - 1 - k
      if i < j then ⟨(text.data.drop i).take (j - i + 1)⟩ else text
  | _, _ => text

/-- `_truncate_transcript` from generators.py. -/
def truncate_transcript (transcript : Transcript) (max_chars : Nat := 50000) : String :=
  let full_text := transcript.full_text
  if full_text.length ≤ max_chars then full_text
  else full_text.take max_chars ++ "\n\n[... transcript truncated for length ...]"

/-! ### Response parsing (generators.py) -/

/-- Lookup in a parsed JSON object, modelling a Python `dict` built by
`json.loads` (a later duplicate key overwrites an earlier one) read by
`dict.get`. -/
def lookupField (fields : List (String × Json)) (key : String) : Option Json :=
  (fields.reverse.find? (fun p => p.1 == key)).map (·.2)

/-- `d.get(key, default)` followed by pydantic validation of a `str` field:
a missing key yields the default, a JSON string passes through, any other
JSON value fails validation. -/
def strFieldD (fields : List (String × Json)) (key dflt : String) : Option String :=
  match lookupField fields key with
  | none => some dflt
  | some (.str s) => some s
  | some _ => none

/-- `d.get(key, default)` followed by pydantic validation of a `float`
field. -/
def numFieldD (fields : List (String × Json)) (key : String) (dflt : Rat) : Option Rat :=
  match lookupField fields key with
  | none => some dflt
  | some (.num q) => some q
  | some _ => none

/-- Python's list comprehension over parsed elements: build each record
in order, aborting at the first failure. -/
def mapMopt (f : α → Option β) : List α → Option (List β)
  | [] => some []
  | a :: l => do
      let b ← f a
      let bs ← mapMopt f l
      some (b :: bs)

/-- One element of the titles array:
`Title(title=t.get("title", ""), thumbnail_text=..., reasoning=...)`.
A non-object element makes `t.get` raise, hence `none`. -/
def titleOfJson : Json → Option Title
  | .obj fields => do
      let title ← strFieldD fields "title" ""
      let thumbnail_text ← strFieldD fields "thumbnail_text" ""
      let reasoning ← strFieldD fields "reasoning" ""
      some ⟨title, thumbnail_text, reasoning⟩
  | _ => none

/-- One element of the chapters array:
`Chapter(start_time=c.get("start_time", 0.0), title=..., description=...)`. -/
def chapterOfJson : Json → Option Chapter
  | .obj fields => do
      let start_time ← numFieldD fields "start_time" 0
      let title ← strFieldD fields "title" ""
      let description ← strFieldD fields "description" ""
      some ⟨start_time, title, description⟩
  | _ => none

/-- Python's stable ascending sort by `start_time`:
`chapters.sort(key=lambda c: c.start_time)`. -/
def Chapter.le (a b : Chapter) : Prop := a.start_time ≤ b.start_time

instance : DecidableRel Chapter.le := fun a b =>
  inferInstanceAs (Decidable (a.start_time ≤ b.start_time))

instance : IsTotal Chapter Chapter.le :=
  ⟨fun a b => le_total a.start_time b.start_time⟩

instance : IsTrans Chapter Chapter.le :=
  ⟨fun _ _ _ h1 h2 => le_trans h1 h2⟩

/-- The sort step of `generate_chapters`: a stable ascending sort on
`start_time` (Python's `list.sort` with a key is stable, and a stable sort
for a total preorder is unique, so insertion sort models it exactly). -/
def sort_chapters (chapters : List Chapter) : List Chapter :=
  List.insertionSort Chapter.le chapters

/-- The clamp step of `generate_chapters`:
`if chapters and chapters[0].start_time > 0: chapters[0].start_time = 0.0`. -/
def clamp_head : List Chapter → List Chapter
  | [] => []
  | c :: rest =>
      if c.start_time > 0 then { c with start_time := 0 } :: rest else c :: rest

/-- The post-parse normalization in `generate_chapters`: stable ascending
sort by start time, then the first-chapter clamp. -/
def normalize_chapters (chapters : List Chapter) : List Chapter :=
  clamp_head (sort_chapters chapters)

/-- Outcome of a generator body: a value, a raised `GenerationError`, or
any other uncaught Python exception. -/
inductive GenResult (α : Type) where
  | ok (val : α)
  | generationError (msg : String)
  | pyError (msg : String)
  deriving Repr, DecidableEq

/-- The parsing tail of `generate_titles` in generators.py as a function of
the raw response: `_extract_json`, `json.loads`, then `Title` construction.
Only `json.JSONDecodeError` is caught and re-raised as the
`GenerationError` message built by the source; iterating a non-list or
calling `.get` on a non-dict raises an uncaught exception instead. -/
def parse_titles_response (response : String) : GenResult (List Title) :=
  match json_loads (extract_json response) with
  | .error e =>
      .generationError ("Failed to parse titles JSON: " ++ e ++ "\nResponse: " ++ response)
  | .ok (.arr elems) =>
      match mapMopt titleOfJson elems with
      | some titles => .ok titles
      | none => .pyError "invalid titles payload"
  | .ok _ => .pyError "titles payload is not a list"

/-- The parsing tail of `generate_chapters` in generators.py, including the
sort-and-clamp normalization applied after a successful parse. -/
def parse_chapters_response (response : String) : GenResult (List Chapter) :=
  match json_loads (extract_json response) with
  | .error e =>
      .generationError ("Failed to parse chapters JSON: " ++ e ++ "\nResponse: " ++ response)
  | .ok (.arr elems) =>
      match mapMopt chapterOfJson elems with
      | some chapters => .ok (normalize_chapters chapters)
      | none => .pyError "invalid chapters payload"
  | .ok _ => .pyError "chapters payload is not a list"

/-! ### Prompt templates (prompts.py), with `str.format` applied -/

/-- `DESCRIPTION_PROMPT.format(transcript=...)` from prompts.py. -/
def description_prompt (transcript : String) : String :=
  "You are an expert YouTube content strategist. Create an engaging YouTube description for this podcast episode.\n\nTRANSCRIPT:\n"
  ++ transcript
  ++ "\n\nCreate a YouTube description with these sections:\n1. **Hook** (2-3 compelling sentences that grab attention and create curiosity)\n2. **Summary** (3-5 bullet points covering the main topics/takeaways)\n3. **Call to Action** (subscribe, like, comment prompt)\n\nGuidelines:\n- Write in an engaging, conversational tone\n- Include relevant keywords naturally for SEO\n- Keep the total description under 500 words\n- Use line breaks for readability\n- Don't use hashtags (those go separately)\n\nOutput ONLY the description text, no additional commentary."

/-- `TITLES_PROMPT.format(transcript=...)` from prompts.py (the doubled
braces of the template render as single braces). -/
def titles_prompt (transcript : String) : String :=
  "You are a viral YouTube title expert. Generate 10 compelling title variations for this podcast episode.\n\nTRANSCRIPT:\n"
  ++ transcript
  ++ "\n\nFor each title, provide:\n1. The title (under 60 characters for full display)\n2. Thumbnail text (2-4 words that would overlay on a thumbnail)\n3. Brief reasoning for why this title works\n\nUse these proven title formulas:\n- Curiosity gap (\"I Tried X for 30 Days...\")\n- Contrarian take (\"Why X is Actually Wrong\")\n- How-to with benefit (\"How to X (Without Y)\")\n- List format (\"5 Things...\")\n- Story hook (\"The Day I Realized...\")\n- Question format (\"Is X Really Worth It?\")\n- Urgency/Warning (\"Stop Doing X Before...\")\n\nOutput as valid JSON array with this structure:\n[\n  \x7b\n    \"title\": \"The video title here\",\n    \"thumbnail_text\": \"SHORT TEXT\",\n    \"reasoning\": \"Why this works\"\n  \x7d\n]\n\nGenerate exactly 10 unique titles with different approaches. Output ONLY the JSON array."

/-- `CHAPTERS_PROMPT.format(transcript_with_timestamps=..., chapter_count=...)`
from prompts.py. -/
def chapters_prompt (transcript_with_timestamps : String) (chapter_count : Int) : String :=
  "You are a podcast editor creating YouTube chapters. Analyze this transcript and identify the major topic transitions.\n\nTRANSCRIPT WITH TIMESTAMPS:\n"
  ++ transcript_with_timestamps
  ++ "\n\nREQUIREMENTS:\n- Create "
  ++ toString chapter_count
  ++ " chapters that cover the full episode\n- First chapter must start at 00:00\n- Each chapter should represent a distinct topic or segment\n- Titles should be concise (2-6 words) and descriptive\n- Align chapter starts to natural topic transitions in the transcript\n\nOutput as valid JSON array with this structure:\n[\n  \x7b\n    \"start_time\": 0.0,\n    \"title\": \"Introduction\",\n    \"description\": \"Welcome and episode overview\"\n  \x7d,\n  \x7b\n    \"start_time\": 154.5,\n    \"title\": \"Main Topic\",\n    \"description\": \"Discussion of the core subject\"\n  \x7d\n]\n\nUse the actual timestamps from the transcript. Output ONLY the JSON array."

/-! ### Generation orchestrator (generators.py) -/

/-- The injected text-generation collaborator: prompt and sampling
temperature to generated text, or an `LLMError` message. -/
def Client : Type := String → Rat → Except String String

/-- A recorded invocation of the collaborator. -/
structure Call where
  prompt : String
  temperature : Rat
  deriving Repr, DecidableEq

/-- A failed generation step: collaborator failure, `GenerationError` from
response parsing, or another uncaught exception. -/
inductive StepError where
  | llm (msg : String)
  | generation (msg : String)
  | py (msg : String)
  deriving Repr, DecidableEq

/-- Lift a generator-body outcome into the step result. -/
def ofGenResult : GenResult α → Except StepError α
  | .ok v => .ok v
  | .generationError m => .error (.generation m)
  | .pyError m => .error (.py m)

/-- `generate_description` from generators.py, instrumented with the list
of collaborator calls it performs. -/
def generate_description (client : Client) (transcript : Transcript) :
    Except StepError String × List Call :=
  let prompt := description_prompt (truncate_transcript transcript)
  (match client prompt (0.7 : Rat) with
   | .error e => .error (.llm e)
   | .ok description => .ok (pyStrip description),
   [⟨prompt, (0.7 : Rat)⟩])

/-- `generate_titles` from generators.py, instrumented with its calls. -/
def generate_titles (client : Client) (transcript : Transcript) :
    Except StepError (List Title) × List Call :=
  let prompt := titles_prompt (truncate_transcript transcript)
  (match client prompt (0.8 : Rat) with
   | .error e => .error (.llm e)
   | .ok response => ofGenResult (parse_titles_response response),
   [⟨prompt, (0.8 : Rat)⟩])

/-- `generate_chapters` from generators.py, instrumented with its calls
(the timestamped rendering is truncated inline in the source). -/
def generate_chapters (client : Client) (transcript : Transcript)
    (chapter_count : Int := 10) : Except StepError (List Chapter) × List Call :=
  let transcript_with_ts := format_transcript_with_timestamps transcript
  let transcript_with_ts :=
    if transcript_with_ts.length > 50000 then
      transcript_with_ts.take 50000 ++ "\n\n[... transcript truncated for length ...]"
    else transcript_with_ts
  let prompt := chapters_prompt transcript_with_ts chapter_count
  (match client prompt (0.5 : Rat) with
   | .error e => .error (.llm e)
   | .ok response => ofGenResult (parse_chapters_response response),
   [⟨prompt, (0.5 : Rat)⟩])

/-- `generate_all_content` from generators.py: description, then titles,
then chapters; the first failure propagates and aborts the rest.  The
second component records every collaborator call actually made. -/
def generate_all_content (client : Client) (transcript : Transcript)
    (chapter_count : Int := 10) : Except StepError GeneratedContent × List Call :=
  let (dres, dcalls) := generate_description client transcript
  match dres with
  | .error e => (.error e, dcalls)
  | .ok description =>
    let (tres, tcalls) := generate_titles client transcript
    match tres with
    | .error e => (.error e, dcalls ++ tcalls)
    | .ok titles =>
      let (cres, ccalls) := generate_chapters client transcript chapter_count
      match cres with
      | .error e => (.error e, dcalls ++ tcalls ++ ccalls)
      | .ok chapters => (.ok ⟨description, titles, chapters⟩, dcalls ++ tcalls ++ ccalls)

/-! ### Transcript JSON persistence (cli.py) -/

/-- `model_dump` of a segment, as serialized into transcript.json. -/
def TranscriptSegment.model_dump (s : TranscriptSegment) : Json :=
  .obj [("start", .num s.start), ("end", .num s.«end»), ("text", .str s.text)]

/-- `model_dump` of a word timestamp. -/
def WordTimestamp.model_dump (w : WordTimestamp) : Json :=
  .obj [("word", .str w.word), ("start", .num w.start), ("end", .num w.«end»),
        ("probability", .num w.probability)]

/-- `transcript.model_dump()`, the value written to transcript.json by
`_save_outputs`. -/
def Transcript.model_dump (t : Transcript) : Json :=
  .obj [("segments", .arr (t.segments.map TranscriptSegment.model_dump)),
        ("words", .arr (t.words.map WordTimestamp.model_dump)),
        ("language", .str t.language),
        ("duration", .num t.duration)]

/-- A required `float` field under pydantic validation. -/
def numField (fields : List (String × Json)) (key : String) : Option Rat :=
  match lookupField fields key with
  | some (.num q) => some q
  | _ => none

/-- A required `str` field under pydantic validation. -/
def strField (fields : List (String × Json)) (key : String) : Option String :=
  match lookupField fields key with
  | some (.str s) => some s
  | _ => none

/-- `TranscriptSegment.model_validate`: all three fields are required. -/
def TranscriptSegment.model_validate : Json → Option TranscriptSegment
  | .obj fields => do
      let start ← numField fields "start"
      let stop ← numField fields "end"
      let text ← strField fields "text"
      some ⟨start, stop, text⟩
  | _ => none

/-- `WordTimestamp.model_validate`: all four fields are required. -/
def WordTimestamp.model_validate : Json → Option WordTimestamp
  | .obj fields => do
      let word ← strField fields "word"
      let start ← numField fields "start"
      let stop ← numField fields "end"
      let probability ← numField fields "probability"
      some ⟨word, start, stop, probability⟩
  | _ => none

/-- `Transcript.model_validate`, as run by the `generate` command on the
loaded transcript.json: every field has a default. -/
def Transcript.model_validate : Json → Option Transcript
  | .obj fields => do
      let segments ←
        match lookupField fields "segments" with
        | none => some ([] : List TranscriptSegment)
        | some (.arr l) => mapMopt TranscriptSegment.model_validate l
        | some _ => none
      let words ←
        match lookupField fields "words" with
        | none => some ([] : List WordTimestamp)
        | some (.arr l) => mapMopt WordTimestamp.model_validate l
        | some _ => none
      let language ← strFieldD fields "language" "en"
      let duration ← numFieldD fields "duration" 0
      some ⟨segments, words, language, duration⟩
  | _ => none

/-! ### Output writer (cli.py) -/

/-- Contents of a written file: a JSON document or plain text. -/
inductive FileData where
  | jsonData (v : Json)
  | textData (s : String)
  deriving Repr

/-- `model_dump` of a title, as serialized into titles.json. -/
def Title.model_dump (t : Title) : Json :=
  .obj [("title", .str t.title), ("thumbnail_text", .str t.thumbnail_text),
        ("reasoning", .str t.reasoning)]

/-- `_save_outputs` from cli.py as a map from its inputs to the
(filename, contents) pairs it writes, in write order.  The
`if content.description:` / `if content.titles:` / `if content.chapters:`
guards are Python truthiness tests, so empty members produce no file. -/
def save_outputs (transcript : Transcript) (content : Option GeneratedContent) :
    List (String × FileData) :=
  [("transcript.json", .jsonData transcript.model_dump),
   ("transcript.txt", .textData transcript.full_text)]
  ++ (match content with
      | none => []
      | some c =>
        (if c.description ≠ "" then [("description.md", .textData c.description)] else [])
        ++ (if c.titles ≠ [] then
              [("titles.json", .jsonData (.arr (c.titles.map Title.model_dump)))]
            else [])
        ++ (if c.chapters ≠ [] then
              [("chapters.txt",
                .textData (String.join (c.chapters.map (fun ch => ch.to_youtube_format ++ "\n"))))]
            else []))

/-! ### Spec-side definitions used to state the claims -/

/-- Spec-side rendering for the full-text claim: the segment texts, each
trimmed, joined by single spaces. -/
def joinTrimmedSpec : List TranscriptSegment → String
  | [] => ""
  | [seg] => pyStrip seg.text
  | seg :: seg2 :: rest => pyStrip seg.text ++ " " ++ joinTrimmedSpec (seg2 :: rest)

/-- Tail-shape of a separated join, used to reason about
`String.intercalate`. -/
def joinTail (sep : String) : List String → String
  | [] => ""
  | a :: rest => sep ++ a ++ joinTail sep rest

/-- The chapters-prompt payload built inside `generate_chapters`: the
timestamped rendering, truncated inline past 50000 characters. -/
def chapters_transcript_input (transcript : Transcript) : String :=
  let transcript_with_ts := format_transcript_with_timestamps transcript
  if transcript_with_ts.length > 50000 then
    transcript_with_ts.take 50000 ++ "\n\n[... transcript truncated for length ...]"
  else transcript_with_ts

/-- The collaborator call made by `generate_description`. -/
def description_call (transcript : Transcript) : Call :=
  ⟨description_prompt (truncate_transcript transcript), (0.7 : Rat)⟩

/-- The collaborator call made by `generate_titles`. -/
def titles_call (transcript : Transcript) : Call :=
  ⟨titles_prompt (truncate_transcript transcript), (0.8 : Rat)⟩

/-- The collaborator call made by `generate_chapters`. -/
def chapters_call (transcript : Transcript) (chapter_count : Int) : Call :=
  ⟨chapters_prompt (chapters_transcript_input transcript) chapter_count, (0.5 : Rat)⟩

/-- A collaborator that fails every request, used to exercise the
orchestrator's failure propagation on a concrete input. -/
def failing_client : Client := fun _ _ => .error "boom"

/-! ## Theorems -/

theorem intercalate_go_eq (s : String) :
    ∀ (as : List String) (acc : String),
      String.intercalate.go acc s as = acc ++ joinTail s as
  | [], acc => by simp [String.intercalate.go, joinTail]
  | a :: rest, acc => by
      rw [String.intercalate.go, intercalate_go_eq s rest, joinTail]
      simp [String.append_assoc]

theorem intercalate_space_eq_joinTrimmedSpec :
    ∀ segs : List TranscriptSegment,
      String.intercalate " " (segs.map (fun seg => pyStrip seg.text)) = joinTrimmedSpec segs
  | [] => rfl
  | [a] => by
      simp [String.intercalate, intercalate_go_eq, joinTail, joinTrimmedSpec]
  | a :: b :: t => by
      have ih := intercalate_space_eq_joinTrimmedSpec (b :: t)
      simp only [List.map, String.intercalate, intercalate_go_eq, joinTail] at ih ⊢
      rw [joinTrimmedSpec, ← ih]
      simp [String.append_assoc]

/-- C5: for every `Transcript`, `full_text` is the space-joined
concatenation of the individually trimmed segment texts, in segment order;
with no segments it is the empty string. -/
theorem full_text_correct (t : Transcript) :
    t.full_text = joinTrimmedSpec t.segments ∧ (t.segments = [] → t.full_text = "") := by
  refine ⟨intercalate_space_eq_joinTrimmedSpec t.segments, fun h => ?_⟩
  rw [Transcript.full_text, h]
  rfl

/-- Witness for the full-text claim at two concrete transcripts. -/
theorem full_text_correct_witness :
    Transcript.full_text ⟨[], [], "en", 0⟩ = "" :=
  (full_text_correct ⟨[], [], "en", 0⟩).2 rfl

theorem pyInt_intCast (n : Int) : pyInt (n : Rat) = n := by
  unfold pyInt
  split <;> simp

theorem pyInt_eq_floor_of_nonneg {q : Rat} (h : 0 ≤ q) : pyInt q = ⌊q⌋ := by
  simp [pyInt, h]

theorem pyInt_eq_of {q : Rat} {n : Int} (h : q = (n : Rat)) : pyInt q = n := by
  rw [h, pyInt_intCast]

/-- Unfolded rendering of `Chapter.timestamp` once the truncated start
time is known. -/
theorem timestamp_of_pyInt (c : Chapter) (n : Int) (h : pyInt c.start_time = n) :
    c.timestamp =
      if n.fdiv 3600 > 0 then
        pad2 (n.fdiv 3600) ++ ":" ++ pad2 ((n.fmod 3600).fdiv 60) ++ ":" ++ pad2 (n.fmod 60)
      else
        pad2 ((n.fmod 3600).fdiv 60) ++ ":" ++ pad2 (n.fmod 60) := by
  simp only [Chapter.timestamp, h]

/-- C7: chapter timestamps truncate the start time to whole seconds and
render `HH:MM:SS` past one hour and `MM:SS` below it, zero-padded, and the
YouTube line is `<timestamp> <title>` with ` - <description>` appended
exactly when the description is non-empty. -/
theorem chapter_format_correct :
    Chapter.timestamp ⟨(65.9 : Rat), "t", ""⟩ = "01:05"
  ∧ Chapter.timestamp ⟨(3725.0 : Rat), "t", ""⟩ = "01:02:05"
  ∧ Chapter.timestamp ⟨(0.0 : Rat), "t", ""⟩ = "00:00"
  ∧ (∀ c : Chapter, c.description = "" →
        c.to_youtube_format = c.timestamp ++ " " ++ c.title)
  ∧ (∀ c : Chapter, c.description ≠ "" →
        c.to_youtube_format = c.timestamp ++ " " ++ c.title ++ " - " ++ c.description) := by
  have h65 : pyInt ((65.9 : Rat)) = 65 := by
    rw [pyInt_eq_floor_of_nonneg (by norm_num)]; norm_num
  have h3725 : pyInt ((3725.0 : Rat)) = 3725 := by
    rw [pyInt_eq_floor_of_nonneg (by norm_num)]; norm_num
  have h0 : pyInt ((0.0 : Rat)) = 0 := by
    rw [pyInt_eq_floor_of_nonneg (by norm_num)]; norm_num
  refine ⟨?_, ?_, ?_, fun c h => ?_, fun c h => ?_⟩
  · rw [timestamp_of_pyInt _ 65 h65]; decide
  · rw [timestamp_of_pyInt _ 3725 h3725]; decide
  · rw [timestamp_of_pyInt _ 0 h0]; decide
  · simp [Chapter.to_youtube_format, h]
  · simp [Chapter.to_youtube_format, h]

/-- Witness for the chapter-format claim at a concrete chapter. -/
theorem chapter_format_correct_witness :
    Chapter.to_youtube_format ⟨(0.0 : Rat), "Intro", "Welcome"⟩ =
      Chapter.timestamp ⟨(0.0 : Rat), "Intro", "Welcome"⟩ ++ " " ++ "Intro" ++ " - " ++ "Welcome" :=
  chapter_format_correct.2.2.2.2 ⟨(0.0 : Rat), "Intro", "Welcome"⟩ (by decide)

/-- C10: the chapter-prompt rendering emits `[MM:SS]` lines with total
whole minutes (no hours component), so 3725 seconds renders as `[62:05]`,
unlike `Chapter.timestamp` which switches to `HH:MM:SS`. -/
theorem segment_line_correct :
    (∀ seg : TranscriptSegment,
        segment_line seg =
          "[" ++ pad2 ⌊seg.start / 60⌋
              ++ ":" ++ pad2 ⌊seg.start - 60 * ((⌊seg.start / 60⌋ : Int) : Rat)⌋
              ++ "] " ++ pyStrip seg.text)
  ∧ (∀ t : Transcript,
        format_transcript_with_timestamps t =
          String.intercalate "\n" (t.segments.map segment_line))
  ∧ segment_line ⟨(3725.0 : Rat), (3730.0 : Rat), "x"⟩ = "[62:05] x"
  ∧ Chapter.timestamp ⟨(3725.0 : Rat), "x", ""⟩ = "01:02:05" := by
  have h3725 : pyInt ((3725.0 : Rat)) = 3725 := by
    rw [pyInt_eq_floor_of_nonneg (by norm_num)]; norm_num
  refine ⟨fun seg => ?_, fun t => rfl, ?_, ?_⟩
  · have hmod : (0 : Rat) ≤ seg.start - 60 * ((⌊seg.start / 60⌋ : Int) : Rat) := by
      have h := Int.floor_le (seg.start / 60)
      nlinarith [h]
    rw [segment_line, pyFloorDivF, pyModF, pyInt_intCast, pyFloorDivF]
    rw [pyInt_eq_floor_of_nonneg hmod]
    simp only [String.append_assoc]
    rfl
  · have hdiv : pyInt (pyFloorDivF (3725.0 : Rat) 60) = 62 := by
      apply pyInt_eq_of
      rw [pyFloorDivF]
      norm_num
    have hsec : pyInt (pyModF (3725.0 : Rat) 60) = 5 := by
      apply pyInt_eq_of
      rw [pyModF, pyFloorDivF]
      norm_num
    rw [segment_line]
    rw [show (⟨(3725.0 : Rat), (3730.0 : Rat), "x"⟩ : TranscriptSegment).start = (3725.0 : Rat) from rfl]
    rw [hdiv, hsec]
    decide
  · rw [timestamp_of_pyInt _ 3725 h3725]; decide

theorem filter_orderedInsert_eq (v : Rat) (c : Chapter) :
    ∀ l : List Chapter,
      (List.orderedInsert Chapter.le c l).filter (fun x => decide (x.start_time = v)) =
        if c.start_time = v then
          c :: l.filter (fun x => decide (x.start_time = v))
        else l.filter (fun x => decide (x.start_time = v))
  | [] => by
      by_cases h : c.start_time = v <;> simp [List.orderedInsert, List.filter, h]
  | b :: l => by
      have ih := filter_orderedInsert_eq v c l
      by_cases hle : Chapter.le c b
      · simp only [List.orderedInsert, if_pos hle]
        by_cases h : c.start_time = v <;> simp [List.filter_cons, h]
      · have hlt : b.start_time < c.start_time := by
          have h' : ¬ c.start_time ≤ b.start_time := hle
          exact lt_of_not_le h'
        simp only [List.orderedInsert, if_neg hle, List.filter_cons, ih]
        by_cases h : c.start_time = v
        · have hbv : ¬ b.start_time = v := by
            rw [← h]; exact ne_of_lt hlt
          simp [h, hbv]
        · by_cases hb : b.start_time = v <;> simp [h, hb]

theorem filter_sort_chapters (v : Rat) :
    ∀ l : List Chapter,
      (sort_chapters l).filter (fun x => decide (x.start_time = v)) =
        l.filter (fun x => decide (x.start_time = v))
  | [] => rfl
  | c :: l => by
      have ih := filter_sort_chapters v l
      simp only [sort_chapters, List.insertionSort] at ih ⊢
      rw [filter_orderedInsert_eq, ih, List.filter_cons]
      by_cases h : c.start_time = v <;> simp [h]

theorem sort_chapters_sorted (l : List Chapter) :
    List.Sorted Chapter.le (sort_chapters l) :=
  List.sorted_insertionSort Chapter.le l

theorem sort_chapters_perm (l : List Chapter) : List.Perm (sort_chapters l) l :=
  List.perm_insertionSort Chapter.le l

theorem normalize_chapters_sorted (l : List Chapter) :
    List.Sorted Chapter.le (normalize_chapters l) := by
  have hs := sort_chapters_sorted l
  rw [normalize_chapters]
  cases hsc : sort_chapters l with
  | nil => simp [clamp_head]
  | cons c rest =>
      rw [hsc] at hs
      rw [List.sorted_cons] at hs
      by_cases h : c.start_time > 0
      · simp only [clamp_head, if_pos h]
        rw [List.sorted_cons]
        refine ⟨fun b hb => ?_, hs.2⟩
        have hcb := hs.1 b hb
        show (0 : Rat) ≤ b.start_time
        exact le_trans (le_of_lt h) hcb
      · simp only [clamp_head, if_neg h]
        rw [List.sorted_cons]
        exact hs

theorem normalize_chapters_head_nonpos (l : List Chapter) (c : Chapter)
    (rest : List Chapter) (h : normalize_chapters l = c :: rest) :
    ¬ 0 < c.start_time := by
  rw [normalize_chapters] at h
  cases hsc : sort_chapters l with
  | nil => rw [hsc] at h; simp [clamp_head] at h
  | cons c0 r0 =>
      rw [hsc] at h
      by_cases h0 : c0.start_time > 0
      · simp only [clamp_head, if_pos h0] at h
        have hc : c = { c0 with start_time := 0 } := (List.cons.injEq _ _ _ _ ▸ h).1.symm
        rw [hc]
        simp
      · simp only [clamp_head, if_neg h0] at h
        have hc : c = c0 := (List.cons.injEq _ _ _ _ ▸ h).1.symm
        rw [hc]
        exact h0

/-- C6: the sort-and-clamp normalization of `generate_chapters` is
idempotent: applying it twice yields the same chapter sequence as applying
it once. -/
theorem normalize_chapters_idempotent (l : List Chapter) :
    normalize_chapters (normalize_chapters l) = normalize_chapters l := by
  have hs : List.Sorted Chapter.le (normalize_chapters l) := normalize_chapters_sorted l
  have hsort : sort_chapters (normalize_chapters l) = normalize_chapters l :=
    List.Sorted.insertionSort_eq hs
  conv_lhs => rw [normalize_chapters, hsort]
  cases hn : normalize_chapters l with
  | nil => simp [clamp_head]
  | cons c rest =>
      have hnp := normalize_chapters_head_nonpos l c rest hn
      simp [clamp_head, hnp, hn]

/-- C1 (amended): the post-processing of `generate_chapters` stably sorts
by start time (elements sharing a start time keep their original relative
order and the multiset of chapters is preserved), then clamps only the
first chapter's start time to 0 when it is positive, leaving every other
chapter untouched; the result is non-decreasing by start time, and its
first element's start time is exactly 0 provided every parsed start time
was nonnegative (a negative first start time is left unchanged). -/
theorem normalize_chapters_correct (l : List Chapter) :
    (∀ v : Rat, (sort_chapters l).filter (fun x => decide (x.start_time = v)) =
        l.filter (fun x => decide (x.start_time = v)))
  ∧ List.Perm (sort_chapters l) l
  ∧ List.Sorted Chapter.le (normalize_chapters l)
  ∧ (∀ c rest, sort_chapters l = c :: rest →
      normalize_chapters l =
        (if 0 < c.start_time then { c with start_time := 0 } else c) :: rest)
  ∧ (l ≠ [] → (∀ c ∈ l, 0 ≤ c.start_time) →
      (normalize_chapters l).head?.map Chapter.start_time = some 0) := by
  refine ⟨fun v => filter_sort_chapters v l, sort_chapters_perm l,
    normalize_chapters_sorted l, fun c rest h => ?_, fun hne hnn => ?_⟩
  · rw [normalize_chapters, h]
    by_cases hp : 0 < c.start_time <;> simp [clamp_head, hp]
  · have hperm := sort_chapters_perm l
    cases hsc : sort_chapters l with
    | nil =>
        rw [hsc] at hperm
        exact absurd hperm.symm.eq_nil hne
    | cons c rest =>
        have hc_mem : c ∈ l := hperm.subset (hsc ▸ List.mem_cons_self c rest)
        have hc0 : 0 ≤ c.start_time := hnn c hc_mem
        rw [normalize_chapters, hsc]
        by_cases h : c.start_time > 0
        · simp [clamp_head, h]
        · have h0 : c.start_time = 0 := le_antisymm (not_lt.mp h) hc0
          simp [clamp_head, h, h0]

/-- Counterexample to C1 as stated: a single parsed chapter with a
negative start time is not rewritten, so the first start time after
normalization is not 0. -/
theorem normalize_chapters_negative_counterexample :
    (normalize_chapters [⟨-1, "A", ""⟩]).head?.map Chapter.start_time ≠ some 0 := by
  decide

/-- Witness for the amended normalization claim on a concrete unsorted
list with nonnegative start times. -/
theorem normalize_chapters_correct_witness :
    (normalize_chapters [⟨2, "b", ""⟩, ⟨1, "a", ""⟩]).head?.map Chapter.start_time = some 0 :=
  (normalize_chapters_correct [⟨2, "b", ""⟩, ⟨1, "a", ""⟩]).2.2.2.2
    (by decide) (by decide)

/-- C2: whenever the extracted (or fallback) text of a raw response fails
to parse as JSON, both generators produce the `GenerationError` whose
message carries the parse failure reason and the full raw response; in
particular no empty or partial list is returned. -/
theorem invalid_json_reports_error (response e : String)
    (h : json_loads (extract_json response) = .error e) :
    parse_titles_response response =
      .generationError ("Failed to parse titles JSON: " ++ e ++ "\nResponse: " ++ response)
  ∧ parse_chapters_response response =
      .generationError ("Failed to parse chapters JSON: " ++ e ++ "\nResponse: " ++ response) := by
  constructor
  · simp only [parse_titles_response, h]
  · simp only [parse_chapters_response, h]

/-- Witness for the malformed-input claim on `"not json at all"`. -/
theorem invalid_json_reports_error_witness :
    parse_titles_response "not json at all" =
      .generationError
        ("Failed to parse titles JSON: " ++ "Expecting value" ++ "\nResponse: " ++ "not json at all")
  ∧ parse_chapters_response "not json at all" =
      .generationError
        ("Failed to parse chapters JSON: " ++ "Expecting value" ++ "\nResponse: " ++ "not json at all") :=
  invalid_json_reports_error "not json at all" "Expecting value" (by rfl)

theorem findIdx?_prefix_cons (p : α → Bool) :
    ∀ (a : List α) (c : α) (t : List α), (∀ x ∈ a, p x = false) → p c = true →
      (a ++ c :: t).findIdx? p = some a.length
  | [], c, t, _, hc => by simp [List.findIdx?_cons, hc]
  | x :: a, c, t, ha, hc => by
      have hx : p x = false := ha x (List.mem_cons_self x a)
      have ih := findIdx?_prefix_cons p a c t (fun y hy => ha y (List.mem_cons_of_mem x hy)) hc
      simp [List.findIdx?_cons, hx, ih]

theorem extract_json_span (a mid b : List Char) (ha : '[' ∉ a) (hb : ']' ∉ b) :
    extract_json ⟨a ++ '[' :: (mid ++ ']' :: b)⟩ = ⟨'[' :: (mid ++ [']'])⟩ := by
  have hl : (⟨a ++ '[' :: (mid ++ ']' :: b)⟩ : String).data = a ++ '[' :: (mid ++ ']' :: b) := rfl
  have hf : (a ++ '[' :: (mid ++ ']' :: b)).findIdx? (· = '[') = some a.length := by
    apply findIdx?_prefix_cons
    · intro x hx
      simp only [decide_eq_false_iff_not]
      intro hxe
      exact ha (hxe ▸ hx)
    · simp
  have hrev : (a ++ '[' :: (mid ++ ']' :: b)).reverse =
      b.reverse ++ ']' :: (mid.reverse ++ '[' :: a.reverse) := by
    simp [List.reverse_append, List.append_assoc]
  have hr : (a ++ '[' :: (mid ++ ']' :: b)).reverse.findIdx? (· = ']') = some b.length := by
    rw [hrev]
    have := findIdx?_prefix_cons (fun x => decide (x = ']')) b.reverse ']'
      (mid.reverse ++ '[' :: a.reverse)
      (fun x hx => by
        simp only [decide_eq_false_iff_not]
        intro hxe
        exact hb (hxe ▸ (List.mem_reverse.mp hx)))
      (by simp)
    simpa using this
  have hlen : (a ++ '[' :: (mid ++ ']' :: b)).length =
      a.length + mid.length + b.length + 2 := by
    simp [List.length_append]
    omega
  simp only [extract_json, hl, hf, hr]
  have hj : (a ++ '[' :: (mid ++ ']' :: b)).length - 1 - b.length =
      a.length + mid.length + 1 := by omega
  rw [hj, if_pos (by omega)]
  have hdrop : (a ++ '[' :: (mid ++ ']' :: b)).drop a.length = '[' :: (mid ++ ']' :: b) :=
    List.drop_left a _
  have htk : a.length + mid.length + 1 - a.length + 1 = mid.length + 2 := by omega
  rw [hdrop, htk]
  have htake : ('[' :: (mid ++ ']' :: b)).take (mid.length + 2) = '[' :: (mid ++ [']']) := by
    rw [List.take_succ_cons]
    have hassoc : mid ++ ']' :: b = (mid ++ [']']) ++ b := by simp
    rw [hassoc, List.take_left' (by simp)]
  rw [htake]

theorem extract_json_fallback (s : String)
    (hno : ∀ x y : List Char, s.data = x ++ '[' :: y → ']' ∉ y) :
    extract_json s = s := by
  rw [extract_json]
  cases hf : s.data.findIdx? (· = '[') with
  | none => rfl
  | some i =>
    cases hr : s.data.reverse.findIdx? (· = ']') with
    | none => rfl
    | some k =>
      have hif : ¬ i < s.data.length - 1 - k := by
        intro hij
        obtain ⟨hi, hpi, -⟩ := List.findIdx?_eq_some_iff_getElem.mp hf
        obtain ⟨hk, hpk, -⟩ := List.findIdx?_eq_some_iff_getElem.mp hr
        have hci : s.data[i] = '[' := by simpa using hpi
        have hkles : k < s.data.length := by simpa using hk
        have hsub : s.data.length - 1 - k < s.data.length := by omega
        have hcj : s.data[s.data.length - 1 - k] = ']' := by
          have hgr := List.getElem_reverse (l := s.data) (i := k) hk
          rw [hgr] at hpk
          simpa using hpk
        set j := s.data.length - 1 - k with hjdef
        have hjlt : j < s.data.length := by omega
        have hx : s.data = s.data.take i ++ '[' :: s.data.drop (i + 1) := by
          conv_lhs => rw [← List.take_append_drop i s.data]
          rw [List.drop_eq_getElem_cons (by omega), hci]
        have hmem : ']' ∈ s.data.drop (i + 1) := by
          have hlen : j - (i + 1) < (s.data.drop (i + 1)).length := by
            simp only [List.length_drop]
            omega
          have hge : (s.data.drop (i + 1))[j - (i + 1)] = s.data[j] := by
            rw [List.getElem_drop s.data]
            congr 1
            omega
          rw [← hcj]
          exact hge ▸ List.getElem_mem hlen
        exact hno _ _ hx hmem
      simp only [hif]
      simp

/-- C3: JSON extraction returns the span from the first left bracket to
the last right bracket when one exists (here phrased by decomposing the
response around that span), falls back to the whole response when no left
bracket is followed by a right bracket, and on the concrete prose-wrapped
example recovers and parses the one-element array. -/
theorem extract_json_correct :
    (∀ a mid b : List Char, '[' ∉ a → ']' ∉ b →
        extract_json ⟨a ++ '[' :: (mid ++ ']' :: b)⟩ = ⟨'[' :: (mid ++ [']'])⟩)
  ∧ (∀ s : String, (∀ x y : List Char, s.data = x ++ '[' :: y → ']' ∉ y) →
        extract_json s = s)
  ∧ extract_json "Here you go:\n[\x7b\"title\":\"A\"\x7d]\nHope that helps"
      = "[\x7b\"title\":\"A\"\x7d]"
  ∧ json_loads (extract_json "Here you go:\n[\x7b\"title\":\"A\"\x7d]\nHope that helps")
      = .ok (.arr [.obj [("title", .str "A")]]) :=
  ⟨extract_json_span, extract_json_fallback, by rfl, by rfl⟩

/-- Witness for the extraction claim at a concrete decomposition. -/
theorem extract_json_correct_witness :
    extract_json ⟨"xx".data ++ '[' :: ("ab".data ++ ']' :: "yy".data)⟩ =
      ⟨'[' :: ("ab".data ++ [']'])⟩ :=
  extract_json_correct.1 "xx".data "ab".data "yy".data (by decide) (by decide)

/-- C4: `generate_all_content` performs exactly the description call
(temperature 0.7), then the titles call (temperature 0.8), then the
chapters call (temperature 0.5 on the timestamp-annotated prompt carrying
the requested count); the first failing step's error is returned as-is,
later steps are never invoked, and no partial content is produced. -/
theorem generate_all_content_correct (client : Client) (t : Transcript) (n : Int) :
    ((generate_description client t).2 = [description_call t]
      ∧ (generate_titles client t).2 = [titles_call t]
      ∧ (generate_chapters client t n).2 = [chapters_call t n])
  ∧ (∀ e, (generate_description client t).1 = .error e →
      generate_all_content client t n = (.error e, [description_call t]))
  ∧ (∀ d e, (generate_description client t).1 = .ok d →
      (generate_titles client t).1 = .error e →
      generate_all_content client t n = (.error e, [description_call t, titles_call t]))
  ∧ (∀ d ti e, (generate_description client t).1 = .ok d →
      (generate_titles client t).1 = .ok ti →
      (generate_chapters client t n).1 = .error e →
      generate_all_content client t n =
        (.error e, [description_call t, titles_call t, chapters_call t n]))
  ∧ (∀ d ti ch, (generate_description client t).1 = .ok d →
      (generate_titles client t).1 = .ok ti →
      (generate_chapters client t n).1 = .ok ch →
      generate_all_content client t n =
        (.ok ⟨d, ti, ch⟩, [description_call t, titles_call t, chapters_call t n])) := by
  refine ⟨⟨rfl, rfl, rfl⟩, ?_, ?_, ?_, ?_⟩
  · intro e h1
    have hd : generate_description client t = (.error e, [description_call t]) :=
      Prod.ext h1 rfl
    simp [generate_all_content, hd]
  · intro d e h1 h2
    have hd : generate_description client t = (.ok d, [description_call t]) :=
      Prod.ext h1 rfl
    have ht : generate_titles client t = (.error e, [titles_call t]) :=
      Prod.ext h2 rfl
    simp [generate_all_content, hd, ht]
  · intro d ti e h1 h2 h3
    have hd : generate_description client t = (.ok d, [description_call t]) :=
      Prod.ext h1 rfl
    have ht : generate_titles client t = (.ok ti, [titles_call t]) :=
      Prod.ext h2 rfl
    have hc : generate_chapters client t n = (.error e, [chapters_call t n]) :=
      Prod.ext h3 rfl
    simp [generate_all_content, hd, ht, hc]
  · intro d ti ch h1 h2 h3
    have hd : generate_description client t = (.ok d, [description_call t]) :=
      Prod.ext h1 rfl
    have ht : generate_titles client t = (.ok ti, [titles_call t]) :=
      Prod.ext h2 rfl
    have hc : generate_chapters client t n = (.ok ch, [chapters_call t n]) :=
      Prod.ext h3 rfl
    simp [generate_all_content, hd, ht, hc]

/-- Witness for the orchestrator claim: a collaborator failing on the
first call aborts with that error after the single description call. -/
theorem generate_all_content_correct_witness :
    generate_all_content failing_client ⟨[], [], "en", 0⟩ 10 =
      (.error (.llm "boom"), [description_call ⟨[], [], "en", 0⟩]) :=
  (generate_all_content_correct failing_client ⟨[], [], "en", 0⟩ 10).2.1 (.llm "boom") rfl

theorem seg_roundtrip (s : TranscriptSegment) :
    TranscriptSegment.model_validate s.model_dump = some s := rfl

theorem word_roundtrip (w : WordTimestamp) :
    WordTimestamp.model_validate w.model_dump = some w := rfl

theorem segs_roundtrip :
    ∀ l : List TranscriptSegment,
      mapMopt TranscriptSegment.model_validate (l.map TranscriptSegment.model_dump) = some l
  | [] => rfl
  | s :: l => by
      have ih := segs_roundtrip l
      simp [mapMopt, seg_roundtrip, ih]

theorem words_roundtrip :
    ∀ l : List WordTimestamp,
      mapMopt WordTimestamp.model_validate (l.map WordTimestamp.model_dump) = some l
  | [] => rfl
  | w :: l => by
      have ih := words_roundtrip l
      simp [mapMopt, word_roundtrip, ih]

/-- C8: the persisted transcript JSON round-trips losslessly: validating
the value the output writer serializes reproduces the `Transcript` in all
fields, and that value is exactly what `_save_outputs` writes to
transcript.json. -/
theorem transcript_roundtrip (t : Transcript) :
    Transcript.model_validate t.model_dump = some t
  ∧ ∀ c, ("transcript.json", FileData.jsonData t.model_dump) ∈ save_outputs t c := by
  constructor
  · simp only [Transcript.model_dump, Transcript.model_validate, lookupField,
      strFieldD, numFieldD]
    simp [List.find?, segs_roundtrip, words_roundtrip]
  · intro c
    simp [save_outputs]

/-- Counterexample to C9 as stated: with a present but all-empty
`GeneratedContent`, the writer does not produce description.md (nor
titles.json, nor chapters.txt). -/
theorem save_outputs_missing_description :
    "description.md" ∉
      (save_outputs ⟨[], [], "en", 0⟩ (some ⟨"", [], []⟩)).map Prod.fst := by
  decide

/-- C9 (amended): the writer always produces transcript.json and
transcript.txt; with content present it additionally produces
description.md, titles.json and chapters.txt exactly for the members that
are non-empty, with the specified contents. -/
theorem save_outputs_correct (t : Transcript) (c : GeneratedContent) :
    (save_outputs t none).map Prod.fst = ["transcript.json", "transcript.txt"]
  ∧ (save_outputs t (some c)).map Prod.fst =
      ["transcript.json", "transcript.txt"]
      ++ (if c.description ≠ "" then ["description.md"] else [])
      ++ (if c.titles ≠ [] then ["titles.json"] else [])
      ++ (if c.chapters ≠ [] then ["chapters.txt"] else [])
  ∧ (c.description ≠ "" → c.titles ≠ [] → c.chapters ≠ [] →
      save_outputs t (some c) =
        [("transcript.json", .jsonData t.model_dump),
         ("transcript.txt", .textData t.full_text),
         ("description.md", .textData c.description),
         ("titles.json", .jsonData (.arr (c.titles.map Title.model_dump))),
         ("chapters.txt",
          .textData (String.join (c.chapters.map (fun ch => ch.to_youtube_format ++ "\n"))))]) := by
  refine ⟨rfl, ?_, fun h1 h2 h3 => ?_⟩
  · by_cases h1 : c.description = "" <;> by_cases h2 : c.titles = ([] : List Title) <;>
      by_cases h3 : c.chapters = ([] : List Chapter) <;>
        simp [save_outputs, h1, h2, h3]
  · simp [save_outputs, h1, h2, h3]

/-- Witness for the amended writer claim at a concrete transcript and a
fully non-empty content. -/
theorem save_outputs_correct_witness :
    save_outputs ⟨[], [], "en", 0⟩ (some ⟨"d", [⟨"t", "tt", ""⟩], [⟨0, "c", ""⟩]⟩) =
      [("transcript.json", .jsonData (Transcript.model_dump ⟨[], [], "en", 0⟩)),
       ("transcript.txt", .textData (Transcript.full_text ⟨[], [], "en", 0⟩)),
       ("description.md", .textData "d"),
       ("titles.json",
        .jsonData (.arr (([⟨"t", "tt", ""⟩] : List Title).map Title.model_dump))),
       ("chapters.txt",
        .textData (String.join (([⟨0, "c", ""⟩] : List Chapter).map
          (fun ch => ch.to_youtube_format ++ "\n"))))] :=
  (save_outputs_correct ⟨[], [], "en", 0⟩ ⟨"d", [⟨"t", "tt", ""⟩], [⟨0, "c", ""⟩]⟩).2.2
    (by decide) (by decide) (by decide)

end Podcast
